import Mathlib

/-!
Verification of the light/group management core of the
`typescript-lighting-fixture-api` repository (`lightService.ts`).

The `LightService` class is embedded shallowly: its mutable state
(the `lights` and `groups` objects, and the two id counters) becomes the
structure `LightService`, and each method becomes a function
`LightService → Except Err α × LightService` returning the result
(or thrown error) together with the state after the call.  A thrown
exception in the TypeScript source leaves all mutations performed so far
in place; each embedded operation therefore returns the state as mutated
up to the throw point.

Time in `scheduleAction`/`calculateDelay` is modelled by integer epoch
milliseconds: the `Date`-parsed value of the `time` string and the
current clock `now` are passed as `Int` arguments, so that
`calculateDelay` computes exactly `targetTime.getTime() - now.getTime()`.
The `setTimeout` registration is modelled by returning the pending
timer's data (`ScheduledTimer`); the store itself is not mutated by a
successful `scheduleAction`, matching the source.
-/

/-- The `LightColor` union type: `'white' | 'blue' | 'red' | 'green' | 'yellow'`. -/
inductive LightColor where
  | white
  | blue
  | red
  | green
  | yellow
deriving DecidableEq

/-- The `'on' | 'off'` union type used both for `Light.status` and for the
`action` argument of `controlGroup`/`scheduleAction`. -/
inductive Status where
  | on
  | off
deriving DecidableEq

/-- The `Light` interface: id, status, brightness and color. -/
structure Light where
  id : Nat
  status : Status
  brightness : Int
  color : LightColor
deriving DecidableEq

/-- The `LightGroup` interface: id, name, and the array of member light ids. -/
structure LightGroup where
  id : Nat
  name : String
  lightIds : List Nat
deriving DecidableEq

/-- The errors thrown by `LightService` methods, one constructor per
distinct `Error` message in the source. -/
inductive Err where
  | lightNotFound
  | groupNotFound
  | brightnessOutOfRange
  | timeInPast
deriving DecidableEq

/-- The specification's two error kinds (§7 of the design spec). -/
inductive SpecErrorKind where
  | NotFound
  | InvalidArgument
deriving DecidableEq

/-- Classification of the service's thrown errors into the spec's error
kinds, following §7: `NotFound` when a referenced light or group id does
not exist (the source's error messages naming a missing light or group),
`InvalidArgument` when a value is outside an allowed range or a
scheduling time is in the past. -/
def Err.specKind : Err → SpecErrorKind
  | .lightNotFound => .NotFound
  | .groupNotFound => .NotFound
  | .brightnessOutOfRange => .InvalidArgument
  | .timeInPast => .InvalidArgument

/-- The mutable state of the `LightService` class: the `lights` map, the
`groups` map, and the two id counters. -/
structure LightService where
  lights : Nat → Option Light
  groups : Nat → Option LightGroup
  groupIdCounter : Nat
  lightIdCounter : Nat

/-- The state built by the `LightService` constructor: two seeded lights
with ids 1 and 2 (off, brightness 0, white), no groups,
`groupIdCounter = 1`, `lightIdCounter = 3`. -/
def LightService.init : LightService where
  lights := fun id =>
    if id = 1 then some ⟨1, Status.off, 0, LightColor.white⟩
    else if id = 2 then some ⟨2, Status.off, 0, LightColor.white⟩
    else none
  groups := fun _ => none
  groupIdCounter := 1
  lightIdCounter := 3

/-- `verifyLightExists(id)`: throws `'Light not found'` when
`this.lights[id]` is absent. -/
def LightService.verifyLightExists (s : LightService) (id : Nat) : Except Err Unit :=
  match s.lights id with
  | none => Except.error Err.lightNotFound
  | some _ => Except.ok ()

/-- `getLight(id)`: `this.lights[id] || null`. -/
def LightService.getLight (s : LightService) (id : Nat) : Option Light :=
  s.lights id

/-- `getAllLights()`: returns the lights map. -/
def LightService.getAllLights (s : LightService) : Nat → Option Light :=
  s.lights

/-- In-place field assignment `this.lights[id].<field> = v`: applies `f`
to the entry at `id` when present, leaving every other entry alone. -/
def LightService.updateLight (s : LightService) (id : Nat) (f : Light → Light) : LightService :=
  { s with lights := fun j => if j = id then (s.lights j).map f else s.lights j }

/-- `turnOn(id)`: verify the light exists, then set its status to `'on'`. -/
def LightService.turnOn (s : LightService) (id : Nat) : Except Err Unit × LightService :=
  match s.verifyLightExists id with
  | Except.error e => (Except.error e, s)
  | Except.ok _ => (Except.ok (), s.updateLight id (fun l => { l with status := Status.on }))

/-- `turnOff(id)`: verify the light exists, then set its status to `'off'`. -/
def LightService.turnOff (s : LightService) (id : Nat) : Except Err Unit × LightService :=
  match s.verifyLightExists id with
  | Except.error e => (Except.error e, s)
  | Except.ok _ => (Except.ok (), s.updateLight id (fun l => { l with status := Status.off }))

/-- `setBrightness(id, brightness)`: verify the light exists, reject a
value outside `[0, 100]`, otherwise set the brightness. -/
def LightService.setBrightness (s : LightService) (id : Nat) (brightness : Int) :
    Except Err Unit × LightService :=
  match s.verifyLightExists id with
  | Except.error e => (Except.error e, s)
  | Except.ok _ =>
    if brightness < 0 ∨ brightness > 100 then
      (Except.error Err.brightnessOutOfRange, s)
    else
      (Except.ok (), s.updateLight id (fun l => { l with brightness := brightness }))

/-- `setColor(id, color)`: verify the light exists, then set its color. -/
def LightService.setColor (s : LightService) (id : Nat) (color : LightColor) :
    Except Err Unit × LightService :=
  match s.verifyLightExists id with
  | Except.error e => (Except.error e, s)
  | Except.ok _ => (Except.ok (), s.updateLight id (fun l => { l with color := color }))

/-- The `lightIds.forEach(id => this.verifyLightExists(id))` loop of
`createGroup`: the first missing id throws. -/
def LightService.verifyAll (s : LightService) : List Nat → Except Err Unit
  | [] => Except.ok ()
  | id :: rest =>
    match s.verifyLightExists id with
    | Except.error e => Except.error e
    | Except.ok _ => s.verifyAll rest

/-- `createGroup(name, lightIds)`: verify every id in `lightIds`, then
allocate `groupId = groupIdCounter++` and store
`{ id: groupId, name, lightIds }` (the member list is stored as given). -/
def LightService.createGroup (s : LightService) (name : String) (lightIds : List Nat) :
    Except Err Nat × LightService :=
  match s.verifyAll lightIds with
  | Except.error e => (Except.error e, s)
  | Except.ok _ =>
    let groupId := s.groupIdCounter
    (Except.ok groupId,
      { s with
          groupIdCounter := s.groupIdCounter + 1,
          groups := fun j =>
            if j = groupId then some ⟨groupId, name, lightIds⟩ else s.groups j })

/-- The body of the `forEach` loop in `controlGroup`:
`if (action === 'on') turnOn(id) else if (action === 'off') turnOff(id)`. -/
def LightService.applyAction (s : LightService) (action : Status) (id : Nat) :
    Except Err Unit × LightService :=
  match action with
  | Status.on => s.turnOn id
  | Status.off => s.turnOff id

/-- The `group.lightIds.forEach(...)` loop of `controlGroup`, applied in
list order; a thrown error aborts the remaining iterations, leaving the
state as mutated so far. -/
def LightService.controlGroupGo (action : Status) :
    List Nat → LightService → Except Err Unit × LightService
  | [], s => (Except.ok (), s)
  | id :: rest, s =>
    match s.applyAction action id with
    | (Except.error e, s₁) => (Except.error e, s₁)
    | (Except.ok _, s₁) => LightService.controlGroupGo action rest s₁

/-- `controlGroup(groupId, action)`: throws `'Group not found'` when the
group is absent, otherwise turns each member light on or off in order. -/
def LightService.controlGroup (s : LightService) (groupId : Nat) (action : Status) :
    Except Err Unit × LightService :=
  match s.groups groupId with
  | none => (Except.error Err.groupNotFound, s)
  | some group => LightService.controlGroupGo action group.lightIds s

/-- `calculateDelay(time)`: `new Date(time).getTime() - now.getTime()`,
with the parsed target time and the current clock given in epoch
milliseconds. -/
def LightService.calculateDelay (time now : Int) : Int :=
  time - now

/-- The data of a pending `setTimeout` registered by `scheduleAction`. -/
structure ScheduledTimer where
  lightId : Nat
  delay : Int
  action : Status
deriving DecidableEq

/-- `scheduleAction(id, time, action)`: verify the light exists, compute
the delay, throw `'Scheduled time must be in the future'` when it is
negative, otherwise register a one-shot timer.  The store is not
mutated; the pending timer is returned as the success value. -/
def LightService.scheduleAction (s : LightService) (id : Nat) (time now : Int)
    (action : Status) : Except Err ScheduledTimer × LightService :=
  match s.verifyLightExists id with
  | Except.error e => (Except.error e, s)
  | Except.ok _ =>
    let delay := LightService.calculateDelay time now
    if delay < 0 then
      (Except.error Err.timeInPast, s)
    else
      (Except.ok ⟨id, delay, action⟩, s)

/-- `addLightToGroup(groupId, lightId)`: verify the light exists, throw
`'Group not found'` when the group is absent, push the light id unless
it is already included. -/
def LightService.addLightToGroup (s : LightService) (groupId lightId : Nat) :
    Except Err Unit × LightService :=
  match s.verifyLightExists lightId with
  | Except.error e => (Except.error e, s)
  | Except.ok _ =>
    match s.groups groupId with
    | none => (Except.error Err.groupNotFound, s)
    | some group =>
      if lightId ∈ group.lightIds then
        (Except.ok (), s)
      else
        (Except.ok (),
          { s with groups := fun j =>
              if j = groupId then
                some { group with lightIds := group.lightIds ++ [lightId] }
              else s.groups j })

/-- `removeLightFromGroup(groupId, lightId)`: throw `'Group not found'`
when the group is absent, otherwise filter the light id out of the
member list. -/
def LightService.removeLightFromGroup (s : LightService) (groupId lightId : Nat) :
    Except Err Unit × LightService :=
  match s.groups groupId with
  | none => (Except.error Err.groupNotFound, s)
  | some group =>
    (Except.ok (),
      { s with groups := fun j =>
          if j = groupId then
            some { group with lightIds := group.lightIds.filter (fun id => id != lightId) }
          else s.groups j })

/-- `deleteLightFromGroup(lightId)` (the system-wide delete): verify the
light exists, filter its id out of every group's member list, then
delete the light from the lights map. -/
def LightService.deleteLightFromGroup (s : LightService) (lightId : Nat) :
    Except Err Unit × LightService :=
  match s.verifyLightExists lightId with
  | Except.error e => (Except.error e, s)
  | Except.ok _ =>
    (Except.ok (),
      { s with
          groups := fun j =>
            (s.groups j).map fun group =>
              { group with lightIds := group.lightIds.filter (fun id => id != lightId) },
          lights := fun j => if j = lightId then none else s.lights j })

/-- `deleteGroup(groupId)`: throw `'Group not found'` when the group is
absent, otherwise delete it. -/
def LightService.deleteGroup (s : LightService) (groupId : Nat) :
    Except Err Unit × LightService :=
  match s.groups groupId with
  | none => (Except.error Err.groupNotFound, s)
  | some _ =>
    (Except.ok (), { s with groups := fun j => if j = groupId then none else s.groups j })

/-- `addLight()`: allocate `newLightId = lightIdCounter++` and insert a
light with the default state (off, brightness 0, white). -/
def LightService.addLight (s : LightService) : Nat × LightService :=
  let newLightId := s.lightIdCounter
  (newLightId,
    { s with
        lightIdCounter := s.lightIdCounter + 1,
        lights := fun j =>
          if j = newLightId then some ⟨newLightId, Status.off, 0, LightColor.white⟩
          else s.lights j })

/-- One state transition of the service: some public mutating operation
is invoked with arbitrary arguments (a scheduled timer firing re-enters
`turnOn`/`turnOff`, which are already among these transitions). -/
inductive Step : LightService → LightService → Prop where
  | turnOn (s : LightService) (id : Nat) : Step s (s.turnOn id).2
  | turnOff (s : LightService) (id : Nat) : Step s (s.turnOff id).2
  | setBrightness (s : LightService) (id : Nat) (b : Int) : Step s (s.setBrightness id b).2
  | setColor (s : LightService) (id : Nat) (c : LightColor) : Step s (s.setColor id c).2
  | createGroup (s : LightService) (n : String) (ids : List Nat) :
      Step s (s.createGroup n ids).2
  | controlGroup (s : LightService) (gid : Nat) (a : Status) : Step s (s.controlGroup gid a).2
  | scheduleAction (s : LightService) (id : Nat) (t now : Int) (a : Status) :
      Step s (s.scheduleAction id t now a).2
  | addLightToGroup (s : LightService) (gid lid : Nat) : Step s (s.addLightToGroup gid lid).2
  | removeLightFromGroup (s : LightService) (gid lid : Nat) :
      Step s (s.removeLightFromGroup gid lid).2
  | deleteLightFromGroup (s : LightService) (lid : Nat) :
      Step s (s.deleteLightFromGroup lid).2
  | deleteGroup (s : LightService) (gid : Nat) : Step s (s.deleteGroup gid).2
  | addLight (s : LightService) : Step s s.addLight.2

/-- States reachable from the seeded initial state by any sequence of
public operations. -/
inductive Reachable : LightService → Prop where
  | init : Reachable LightService.init
  | step {s t : LightService} : Reachable s → Step s t → Reachable t

/-- Referential integrity: every light id occurring in any group's
member list refers to a light present in the lights map. -/
def RefIntegrity (s : LightService) : Prop :=
  ∀ gid g, s.groups gid = some g → ∀ lid ∈ g.lightIds, (s.lights lid).isSome

/-- No group's member list contains the same light id twice. -/
def GroupsNodup (s : LightService) : Prop :=
  ∀ gid g, s.groups gid = some g → g.lightIds.Nodup

/-- Like `Step`, but every `createGroup` call receives a duplicate-free
member list. -/
inductive StepND : LightService → LightService → Prop where
  | turnOn (s : LightService) (id : Nat) : StepND s (s.turnOn id).2
  | turnOff (s : LightService) (id : Nat) : StepND s (s.turnOff id).2
  | setBrightness (s : LightService) (id : Nat) (b : Int) : StepND s (s.setBrightness id b).2
  | setColor (s : LightService) (id : Nat) (c : LightColor) : StepND s (s.setColor id c).2
  | createGroup (s : LightService) (n : String) (ids : List Nat) (hnd : ids.Nodup) :
      StepND s (s.createGroup n ids).2
  | controlGroup (s : LightService) (gid : Nat) (a : Status) : StepND s (s.controlGroup gid a).2
  | scheduleAction (s : LightService) (id : Nat) (t now : Int) (a : Status) :
      StepND s (s.scheduleAction id t now a).2
  | addLightToGroup (s : LightService) (gid lid : Nat) : StepND s (s.addLightToGroup gid lid).2
  | removeLightFromGroup (s : LightService) (gid lid : Nat) :
      StepND s (s.removeLightFromGroup gid lid).2
  | deleteLightFromGroup (s : LightService) (lid : Nat) :
      StepND s (s.deleteLightFromGroup lid).2
  | deleteGroup (s : LightService) (gid : Nat) : StepND s (s.deleteGroup gid).2
  | addLight (s : LightService) : StepND s s.addLight.2

/-- States reachable from the seeded initial state by any sequence of
public operations in which every `createGroup` call receives a
duplicate-free member list. -/
inductive ReachableND : LightService → Prop where
  | init : ReachableND LightService.init
  | step {s t : LightService} : ReachableND s → StepND s t → ReachableND t

/-- The cumulative effect of `controlGroup`'s loop over the ids it has
processed: set the status of each listed light, in list order. -/
def applyActionList (action : Status) (ids : List Nat) (s : LightService) : LightService :=
  ids.foldl (fun t id => t.updateLight id (fun l => { l with status := action })) s

/-! ### Basic lemmas about the single-light operations -/

theorem verifyLightExists_none {s : LightService} {id : Nat} (h : s.lights id = none) :
    s.verifyLightExists id = Except.error Err.lightNotFound := by
  simp [LightService.verifyLightExists, h]

theorem verifyLightExists_some {s : LightService} {id : Nat} {l : Light}
    (h : s.lights id = some l) : s.verifyLightExists id = Except.ok () := by
  simp [LightService.verifyLightExists, h]

theorem updateLight_lights_self (s : LightService) (id : Nat) (f : Light → Light) :
    (s.updateLight id f).lights id = (s.lights id).map f := by
  simp [LightService.updateLight]

theorem updateLight_lights_ne (s : LightService) (id : Nat) (f : Light → Light)
    {j : Nat} (h : j ≠ id) : (s.updateLight id f).lights j = s.lights j := by
  simp [LightService.updateLight, h]

theorem updateLight_isSome (s : LightService) (id : Nat) (f : Light → Light) (j : Nat) :
    ((s.updateLight id f).lights j).isSome = (s.lights j).isSome := by
  by_cases h : j = id
  · subst h
    rw [updateLight_lights_self]
    cases s.lights j <;> rfl
  · rw [updateLight_lights_ne s id f h]

theorem updateLight_groups (s : LightService) (id : Nat) (f : Light → Light) :
    (s.updateLight id f).groups = s.groups := rfl

theorem updateLight_groupIdCounter (s : LightService) (id : Nat) (f : Light → Light) :
    (s.updateLight id f).groupIdCounter = s.groupIdCounter := rfl

theorem updateLight_lightIdCounter (s : LightService) (id : Nat) (f : Light → Light) :
    (s.updateLight id f).lightIdCounter = s.lightIdCounter := rfl

theorem turnOn_none {s : LightService} {id : Nat} (h : s.lights id = none) :
    s.turnOn id = (Except.error Err.lightNotFound, s) := by
  simp [LightService.turnOn, verifyLightExists_none h]

theorem turnOn_some {s : LightService} {id : Nat} {l : Light} (h : s.lights id = some l) :
    s.turnOn id = (Except.ok (), s.updateLight id (fun l => { l with status := Status.on })) := by
  simp [LightService.turnOn, verifyLightExists_some h]

theorem turnOff_none {s : LightService} {id : Nat} (h : s.lights id = none) :
    s.turnOff id = (Except.error Err.lightNotFound, s) := by
  simp [LightService.turnOff, verifyLightExists_none h]

theorem turnOff_some {s : LightService} {id : Nat} {l : Light} (h : s.lights id = some l) :
    s.turnOff id = (Except.ok (), s.updateLight id (fun l => { l with status := Status.off })) := by
  simp [LightService.turnOff, verifyLightExists_some h]

theorem applyAction_none {s : LightService} {id : Nat} (a : Status) (h : s.lights id = none) :
    s.applyAction a id = (Except.error Err.lightNotFound, s) := by
  cases a
  · exact (by simp [LightService.applyAction, turnOn_none h])
  · exact (by simp [LightService.applyAction, turnOff_none h])

theorem applyAction_some {s : LightService} {id : Nat} {l : Light} (a : Status)
    (h : s.lights id = some l) :
    s.applyAction a id = (Except.ok (), s.updateLight id (fun l => { l with status := a })) := by
  cases a
  · exact (by simp [LightService.applyAction, turnOn_some h])
  · exact (by simp [LightService.applyAction, turnOff_some h])

theorem setBrightness_none {s : LightService} {id : Nat} (b : Int) (h : s.lights id = none) :
    s.setBrightness id b = (Except.error Err.lightNotFound, s) := by
  simp [LightService.setBrightness, verifyLightExists_none h]

theorem setBrightness_out {s : LightService} {id : Nat} {l : Light} {b : Int}
    (h : s.lights id = some l) (hb : b < 0 ∨ b > 100) :
    s.setBrightness id b = (Except.error Err.brightnessOutOfRange, s) := by
  simp [LightService.setBrightness, verifyLightExists_some h, hb]

theorem setBrightness_in {s : LightService} {id : Nat} {l : Light} {b : Int}
    (h : s.lights id = some l) (h0 : 0 ≤ b) (h100 : b ≤ 100) :
    s.setBrightness id b =
      (Except.ok (), s.updateLight id (fun l => { l with brightness := b })) := by
  have hb : ¬ (b < 0 ∨ b > 100) := by omega
  simp [LightService.setBrightness, verifyLightExists_some h, hb]

theorem setColor_none {s : LightService} {id : Nat} (c : LightColor) (h : s.lights id = none) :
    s.setColor id c = (Except.error Err.lightNotFound, s) := by
  simp [LightService.setColor, verifyLightExists_none h]

theorem setColor_some {s : LightService} {id : Nat} {l : Light} (c : LightColor)
    (h : s.lights id = some l) :
    s.setColor id c = (Except.ok (), s.updateLight id (fun l => { l with color := c })) := by
  simp [LightService.setColor, verifyLightExists_some h]

theorem scheduleAction_snd (s : LightService) (id : Nat) (t now : Int) (a : Status) :
    (s.scheduleAction id t now a).2 = s := by
  unfold LightService.scheduleAction
  cases s.verifyLightExists id
  · rfl
  · dsimp only
    split <;> rfl

/-! ### Lemmas about `verifyAll` and `createGroup` -/

theorem verifyAll_ok_of_forall {s : LightService} {ids : List Nat}
    (h : ∀ id ∈ ids, (s.lights id).isSome) : s.verifyAll ids = Except.ok () := by
  induction ids with
  | nil => rfl
  | cons x xs ih =>
    obtain ⟨l, hl⟩ := Option.isSome_iff_exists.mp (h x (List.mem_cons_self x xs))
    rw [LightService.verifyAll, verifyLightExists_some hl]
    exact ih fun id hid => h id (List.mem_cons_of_mem x hid)

theorem verifyAll_error_of_missing {s : LightService} {ids : List Nat} {x : Nat}
    (hx : x ∈ ids) (hnone : s.lights x = none) :
    s.verifyAll ids = Except.error Err.lightNotFound := by
  induction ids with
  | nil => cases hx
  | cons y ys ih =>
    rcases List.mem_cons.mp hx with h | h
    · subst h
      rw [LightService.verifyAll, verifyLightExists_none hnone]
    · cases hy : s.lights y with
      | none => rw [LightService.verifyAll, verifyLightExists_none hy]
      | some l =>
        rw [LightService.verifyAll, verifyLightExists_some hy]
        exact ih h

theorem verifyAll_forall_of_ok {s : LightService} {ids : List Nat}
    (h : s.verifyAll ids = Except.ok ()) : ∀ id ∈ ids, (s.lights id).isSome := by
  intro id hid
  cases hl : s.lights id with
  | none => rw [verifyAll_error_of_missing hid hl] at h; cases h
  | some l => rfl

theorem createGroup_error {s : LightService} {name : String} {ids : List Nat} {e : Err}
    (h : s.verifyAll ids = Except.error e) : s.createGroup name ids = (Except.error e, s) := by
  simp [LightService.createGroup, h]

theorem createGroup_ok {s : LightService} {name : String} {ids : List Nat}
    (h : s.verifyAll ids = Except.ok ()) :
    s.createGroup name ids =
      (Except.ok s.groupIdCounter,
        { s with
            groupIdCounter := s.groupIdCounter + 1,
            groups := fun j =>
              if j = s.groupIdCounter then some ⟨s.groupIdCounter, name, ids⟩
              else s.groups j }) := by
  simp [LightService.createGroup, h]

/-! ### Effect lemmas for the `controlGroup` loop -/

theorem applyAction_groups (s : LightService) (a : Status) (id : Nat) :
    (s.applyAction a id).2.groups = s.groups := by
  cases hl : s.lights id with
  | none => rw [applyAction_none a hl]
  | some l => rw [applyAction_some a hl]; rfl

theorem applyAction_isSome (s : LightService) (a : Status) (id j : Nat) :
    ((s.applyAction a id).2.lights j).isSome = (s.lights j).isSome := by
  cases hl : s.lights id with
  | none => rw [applyAction_none a hl]
  | some l => rw [applyAction_some a hl]; exact updateLight_isSome s id _ j

theorem applyAction_groupIdCounter (s : LightService) (a : Status) (id : Nat) :
    (s.applyAction a id).2.groupIdCounter = s.groupIdCounter := by
  cases hl : s.lights id with
  | none => rw [applyAction_none a hl]
  | some l => rw [applyAction_some a hl]; rfl

theorem applyAction_lightIdCounter (s : LightService) (a : Status) (id : Nat) :
    (s.applyAction a id).2.lightIdCounter = s.lightIdCounter := by
  cases hl : s.lights id with
  | none => rw [applyAction_none a hl]
  | some l => rw [applyAction_some a hl]; rfl

theorem controlGroupGo_groups (a : Status) (ids : List Nat) (s : LightService) :
    (LightService.controlGroupGo a ids s).2.groups = s.groups := by
  induction ids generalizing s with
  | nil => rfl
  | cons x xs ih =>
    rw [LightService.controlGroupGo]
    rcases hx : s.applyAction a x with ⟨r, s₁⟩
    have hg : s₁.groups = s.groups := by
      have := applyAction_groups s a x
      rw [hx] at this
      exact this
    cases r with
    | error e => exact hg
    | ok u => rw [ih s₁, hg]

theorem controlGroupGo_isSome (a : Status) (ids : List Nat) (s : LightService) (j : Nat) :
    ((LightService.controlGroupGo a ids s).2.lights j).isSome = (s.lights j).isSome := by
  induction ids generalizing s with
  | nil => rfl
  | cons x xs ih =>
    rw [LightService.controlGroupGo]
    rcases hx : s.applyAction a x with ⟨r, s₁⟩
    have hg : (s₁.lights j).isSome = (s.lights j).isSome := by
      have := applyAction_isSome s a x j
      rw [hx] at this
      exact this
    cases r with
    | error e => exact hg
    | ok u => rw [ih s₁, hg]

theorem controlGroupGo_groupIdCounter (a : Status) (ids : List Nat) (s : LightService) :
    (LightService.controlGroupGo a ids s).2.groupIdCounter = s.groupIdCounter := by
  induction ids generalizing s with
  | nil => rfl
  | cons x xs ih =>
    rw [LightService.controlGroupGo]
    rcases hx : s.applyAction a x with ⟨r, s₁⟩
    have hg : s₁.groupIdCounter = s.groupIdCounter := by
      have := applyAction_groupIdCounter s a x
      rw [hx] at this
      exact this
    cases r with
    | error e => exact hg
    | ok u => rw [ih s₁, hg]

theorem controlGroupGo_lightIdCounter (a : Status) (ids : List Nat) (s : LightService) :
    (LightService.controlGroupGo a ids s).2.lightIdCounter = s.lightIdCounter := by
  induction ids generalizing s with
  | nil => rfl
  | cons x xs ih =>
    rw [LightService.controlGroupGo]
    rcases hx : s.applyAction a x with ⟨r, s₁⟩
    have hg : s₁.lightIdCounter = s.lightIdCounter := by
      have := applyAction_lightIdCounter s a x
      rw [hx] at this
      exact this
    cases r with
    | error e => exact hg
    | ok u => rw [ih s₁, hg]

/-! ### Characterization of the `controlGroup` loop -/

theorem applyActionList_nil (a : Status) (s : LightService) :
    applyActionList a [] s = s := rfl

theorem applyActionList_cons (a : Status) (x : Nat) (xs : List Nat) (s : LightService) :
    applyActionList a (x :: xs) s =
      applyActionList a xs (s.updateLight x (fun l => { l with status := a })) := by
  simp [applyActionList]

theorem applyActionList_isSome (a : Status) (ids : List Nat) (s : LightService) (j : Nat) :
    ((applyActionList a ids s).lights j).isSome = (s.lights j).isSome := by
  induction ids generalizing s with
  | nil => rfl
  | cons x xs ih => rw [applyActionList_cons, ih, updateLight_isSome]

theorem applyActionList_not_mem (a : Status) {ids : List Nat} (s : LightService) {j : Nat}
    (hj : j ∉ ids) : (applyActionList a ids s).lights j = s.lights j := by
  induction ids generalizing s with
  | nil => rfl
  | cons x xs ih =>
    rw [applyActionList_cons, ih _ (fun h => hj (List.mem_cons_of_mem x h)),
      updateLight_lights_ne s x _ (fun h => hj (by rw [h]; exact List.mem_cons_self x xs))]

theorem applyActionList_mem (a : Status) {ids : List Nat} {s : LightService}
    (hall : ∀ id ∈ ids, (s.lights id).isSome) {id : Nat} (hid : id ∈ ids) :
    ∃ l, (applyActionList a ids s).lights id = some l ∧ l.status = a := by
  induction ids generalizing s with
  | nil => cases hid
  | cons x xs ih =>
    rw [applyActionList_cons]
    have hall₁ : ∀ i ∈ xs, ((s.updateLight x (fun l => { l with status := a })).lights i).isSome := by
      intro i hi
      rw [updateLight_isSome]
      exact hall i (List.mem_cons_of_mem x hi)
    rcases List.mem_cons.mp hid with rfl | hmem
    · by_cases hx : id ∈ xs
      · exact ih hall₁ hx
      · obtain ⟨l, hl⟩ := Option.isSome_iff_exists.mp (hall id (List.mem_cons_self id xs))
        refine ⟨{ l with status := a }, ?_, rfl⟩
        rw [applyActionList_not_mem a _ hx, updateLight_lights_self, hl]
        rfl
    · exact ih hall₁ hmem

theorem controlGroupGo_all_some (a : Status) {ids : List Nat} {s : LightService}
    (h : ∀ id ∈ ids, (s.lights id).isSome) :
    LightService.controlGroupGo a ids s = (Except.ok (), applyActionList a ids s) := by
  induction ids generalizing s with
  | nil => rfl
  | cons x xs ih =>
    obtain ⟨l, hl⟩ := Option.isSome_iff_exists.mp (h x (List.mem_cons_self x xs))
    rw [LightService.controlGroupGo, applyAction_some a hl]
    rw [applyActionList_cons]
    exact ih fun i hi => by
      rw [updateLight_isSome]
      exact h i (List.mem_cons_of_mem x hi)

theorem controlGroupGo_first_missing (a : Status) {pre : List Nat} {m : Nat} (rest : List Nat)
    {s : LightService} (hpre : ∀ id ∈ pre, (s.lights id).isSome) (hm : s.lights m = none) :
    LightService.controlGroupGo a (pre ++ m :: rest) s =
      (Except.error Err.lightNotFound, applyActionList a pre s) := by
  induction pre generalizing s with
  | nil =>
    rw [List.nil_append, LightService.controlGroupGo, applyAction_none a hm]
    rfl
  | cons x xs ih =>
    obtain ⟨l, hl⟩ := Option.isSome_iff_exists.mp (hpre x (List.mem_cons_self x xs))
    rw [List.cons_append, LightService.controlGroupGo, applyAction_some a hl,
      applyActionList_cons]
    have hx_ne : m ≠ x := by
      intro h
      rw [h, hl] at hm
      cases hm
    refine ih (fun i hi => ?_) ?_
    · rw [updateLight_isSome]
      exact hpre i (List.mem_cons_of_mem x hi)
    · rw [updateLight_lights_ne s x _ hx_ne]
      exact hm

/-! ### Case lemmas for the group-membership operations -/

theorem controlGroup_none {s : LightService} {gid : Nat} (a : Status)
    (h : s.groups gid = none) :
    s.controlGroup gid a = (Except.error Err.groupNotFound, s) := by
  simp [LightService.controlGroup, h]

theorem controlGroup_some {s : LightService} {gid : Nat} {g : LightGroup} (a : Status)
    (h : s.groups gid = some g) :
    s.controlGroup gid a = LightService.controlGroupGo a g.lightIds s := by
  simp [LightService.controlGroup, h]

theorem addLightToGroup_light_none {s : LightService} {gid lid : Nat}
    (h : s.lights lid = none) :
    s.addLightToGroup gid lid = (Except.error Err.lightNotFound, s) := by
  simp [LightService.addLightToGroup, verifyLightExists_none h]

theorem addLightToGroup_group_none {s : LightService} {gid lid : Nat} {l : Light}
    (hl : s.lights lid = some l) (hg : s.groups gid = none) :
    s.addLightToGroup gid lid = (Except.error Err.groupNotFound, s) := by
  simp [LightService.addLightToGroup, verifyLightExists_some hl, hg]

theorem addLightToGroup_mem {s : LightService} {gid lid : Nat} {l : Light} {g : LightGroup}
    (hl : s.lights lid = some l) (hg : s.groups gid = some g) (hmem : lid ∈ g.lightIds) :
    s.addLightToGroup gid lid = (Except.ok (), s) := by
  simp [LightService.addLightToGroup, verifyLightExists_some hl, hg, hmem]

theorem addLightToGroup_not_mem {s : LightService} {gid lid : Nat} {l : Light} {g : LightGroup}
    (hl : s.lights lid = some l) (hg : s.groups gid = some g) (hmem : lid ∉ g.lightIds) :
    s.addLightToGroup gid lid =
      (Except.ok (),
        { s with groups := fun j =>
            if j = gid then some { g with lightIds := g.lightIds ++ [lid] }
            else s.groups j }) := by
  simp [LightService.addLightToGroup, verifyLightExists_some hl, hg, hmem]

theorem removeLightFromGroup_none {s : LightService} {gid : Nat} (lid : Nat)
    (h : s.groups gid = none) :
    s.removeLightFromGroup gid lid = (Except.error Err.groupNotFound, s) := by
  simp [LightService.removeLightFromGroup, h]

theorem removeLightFromGroup_some {s : LightService} {gid : Nat} {g : LightGroup} (lid : Nat)
    (h : s.groups gid = some g) :
    s.removeLightFromGroup gid lid =
      (Except.ok (),
        { s with groups := fun j =>
            if j = gid then some { g with lightIds := g.lightIds.filter (fun id => id != lid) }
            else s.groups j }) := by
  simp [LightService.removeLightFromGroup, h]

theorem deleteLightFromGroup_none {s : LightService} {lid : Nat} (h : s.lights lid = none) :
    s.deleteLightFromGroup lid = (Except.error Err.lightNotFound, s) := by
  simp [LightService.deleteLightFromGroup, verifyLightExists_none h]

theorem deleteLightFromGroup_some {s : LightService} {lid : Nat} {l : Light}
    (h : s.lights lid = some l) :
    s.deleteLightFromGroup lid =
      (Except.ok (),
        { s with
            groups := fun j =>
              (s.groups j).map fun group =>
                { group with lightIds := group.lightIds.filter (fun id => id != lid) },
            lights := fun j => if j = lid then none else s.lights j }) := by
  simp [LightService.deleteLightFromGroup, verifyLightExists_some h]

theorem deleteGroup_none {s : LightService} {gid : Nat} (h : s.groups gid = none) :
    s.deleteGroup gid = (Except.error Err.groupNotFound, s) := by
  simp [LightService.deleteGroup, h]

theorem deleteGroup_some {s : LightService} {gid : Nat} {g : LightGroup}
    (h : s.groups gid = some g) :
    s.deleteGroup gid =
      (Except.ok (), { s with groups := fun j => if j = gid then none else s.groups j }) := by
  simp [LightService.deleteGroup, h]

theorem addLight_fst (s : LightService) : s.addLight.1 = s.lightIdCounter := rfl

theorem addLight_snd_lightIdCounter (s : LightService) :
    s.addLight.2.lightIdCounter = s.lightIdCounter + 1 := rfl

/-! ### The light id counter under each operation -/

theorem turnOn_lightIdCounter (s : LightService) (id : Nat) :
    (s.turnOn id).2.lightIdCounter = s.lightIdCounter := by
  cases hl : s.lights id with
  | none => rw [turnOn_none hl]
  | some l => rw [turnOn_some hl]; rfl

theorem turnOff_lightIdCounter (s : LightService) (id : Nat) :
    (s.turnOff id).2.lightIdCounter = s.lightIdCounter := by
  cases hl : s.lights id with
  | none => rw [turnOff_none hl]
  | some l => rw [turnOff_some hl]; rfl

theorem setBrightness_lightIdCounter (s : LightService) (id : Nat) (b : Int) :
    (s.setBrightness id b).2.lightIdCounter = s.lightIdCounter := by
  cases hl : s.lights id with
  | none => rw [setBrightness_none b hl]
  | some l =>
    by_cases hb : b < 0 ∨ b > 100
    · rw [setBrightness_out hl hb]
    · rw [setBrightness_in hl (by omega) (by omega)]; rfl

theorem setColor_lightIdCounter (s : LightService) (id : Nat) (c : LightColor) :
    (s.setColor id c).2.lightIdCounter = s.lightIdCounter := by
  cases hl : s.lights id with
  | none => rw [setColor_none c hl]
  | some l => rw [setColor_some c hl]; rfl

theorem createGroup_lightIdCounter (s : LightService) (n : String) (ids : List Nat) :
    (s.createGroup n ids).2.lightIdCounter = s.lightIdCounter := by
  cases hv : s.verifyAll ids with
  | error e => rw [createGroup_error hv]
  | ok u => cases u; rw [createGroup_ok hv]

theorem controlGroup_lightIdCounter (s : LightService) (gid : Nat) (a : Status) :
    (s.controlGroup gid a).2.lightIdCounter = s.lightIdCounter := by
  cases hg : s.groups gid with
  | none => rw [controlGroup_none a hg]
  | some g => rw [controlGroup_some a hg, controlGroupGo_lightIdCounter]

theorem addLightToGroup_lightIdCounter (s : LightService) (gid lid : Nat) :
    (s.addLightToGroup gid lid).2.lightIdCounter = s.lightIdCounter := by
  cases hl : s.lights lid with
  | none => rw [addLightToGroup_light_none hl]
  | some l =>
    cases hg : s.groups gid with
    | none => rw [addLightToGroup_group_none hl hg]
    | some g =>
      by_cases hmem : lid ∈ g.lightIds
      · rw [addLightToGroup_mem hl hg hmem]
      · rw [addLightToGroup_not_mem hl hg hmem]

theorem removeLightFromGroup_lightIdCounter (s : LightService) (gid lid : Nat) :
    (s.removeLightFromGroup gid lid).2.lightIdCounter = s.lightIdCounter := by
  cases hg : s.groups gid with
  | none => rw [removeLightFromGroup_none lid hg]
  | some g => rw [removeLightFromGroup_some lid hg]

theorem deleteLightFromGroup_lightIdCounter (s : LightService) (lid : Nat) :
    (s.deleteLightFromGroup lid).2.lightIdCounter = s.lightIdCounter := by
  cases hl : s.lights lid with
  | none => rw [deleteLightFromGroup_none hl]
  | some l => rw [deleteLightFromGroup_some hl]

theorem deleteGroup_lightIdCounter (s : LightService) (gid : Nat) :
    (s.deleteGroup gid).2.lightIdCounter = s.lightIdCounter := by
  cases hg : s.groups gid with
  | none => rw [deleteGroup_none hg]
  | some g => rw [deleteGroup_some hg]

theorem step_lightIdCounter_le {s t : LightService} (h : Step s t) :
    s.lightIdCounter ≤ t.lightIdCounter := by
  cases h with
  | turnOn id => rw [turnOn_lightIdCounter]
  | turnOff id => rw [turnOff_lightIdCounter]
  | setBrightness id b => rw [setBrightness_lightIdCounter]
  | setColor id c => rw [setColor_lightIdCounter]
  | createGroup n ids => rw [createGroup_lightIdCounter]
  | controlGroup gid a => rw [controlGroup_lightIdCounter]
  | scheduleAction id t now a => rw [scheduleAction_snd]
  | addLightToGroup gid lid => rw [addLightToGroup_lightIdCounter]
  | removeLightFromGroup gid lid => rw [removeLightFromGroup_lightIdCounter]
  | deleteLightFromGroup lid => rw [deleteLightFromGroup_lightIdCounter]
  | deleteGroup gid => rw [deleteGroup_lightIdCounter]
  | addLight => rw [addLight_snd_lightIdCounter]; exact Nat.le_succ _

theorem rtg_lightIdCounter_le {s t : LightService} (h : Relation.ReflTransGen Step s t) :
    s.lightIdCounter ≤ t.lightIdCounter := by
  induction h with
  | refl => exact Nat.le_refl _
  | tail _ hstep ih => exact Nat.le_trans ih (step_lightIdCounter_le hstep)

theorem reachable_lightIdCounter_ge {s : LightService} (h : Reachable s) :
    3 ≤ s.lightIdCounter := by
  induction h with
  | init => exact Nat.le_refl _
  | step _ hstep ih => exact Nat.le_trans ih (step_lightIdCounter_le hstep)

/-! ### Preservation of referential integrity -/

theorem turnOn_groups (s : LightService) (id : Nat) : (s.turnOn id).2.groups = s.groups := by
  cases hl : s.lights id with
  | none => rw [turnOn_none hl]
  | some l => rw [turnOn_some hl]; rfl

theorem turnOff_groups (s : LightService) (id : Nat) : (s.turnOff id).2.groups = s.groups := by
  cases hl : s.lights id with
  | none => rw [turnOff_none hl]
  | some l => rw [turnOff_some hl]; rfl

theorem setBrightness_groups (s : LightService) (id : Nat) (b : Int) :
    (s.setBrightness id b).2.groups = s.groups := by
  cases hl : s.lights id with
  | none => rw [setBrightness_none b hl]
  | some l =>
    by_cases hb : b < 0 ∨ b > 100
    · rw [setBrightness_out hl hb]
    · rw [setBrightness_in hl (by omega) (by omega)]; rfl

theorem setColor_groups (s : LightService) (id : Nat) (c : LightColor) :
    (s.setColor id c).2.groups = s.groups := by
  cases hl : s.lights id with
  | none => rw [setColor_none c hl]
  | some l => rw [setColor_some c hl]; rfl

theorem turnOn_isSome (s : LightService) (id j : Nat) :
    ((s.turnOn id).2.lights j).isSome = (s.lights j).isSome := by
  cases hl : s.lights id with
  | none => rw [turnOn_none hl]
  | some l => rw [turnOn_some hl]; exact updateLight_isSome s id _ j

theorem turnOff_isSome (s : LightService) (id j : Nat) :
    ((s.turnOff id).2.lights j).isSome = (s.lights j).isSome := by
  cases hl : s.lights id with
  | none => rw [turnOff_none hl]
  | some l => rw [turnOff_some hl]; exact updateLight_isSome s id _ j

theorem setBrightness_isSome (s : LightService) (id : Nat) (b : Int) (j : Nat) :
    ((s.setBrightness id b).2.lights j).isSome = (s.lights j).isSome := by
  cases hl : s.lights id with
  | none => rw [setBrightness_none b hl]
  | some l =>
    by_cases hb : b < 0 ∨ b > 100
    · rw [setBrightness_out hl hb]
    · rw [setBrightness_in hl (by omega) (by omega)]; exact updateLight_isSome s id _ j

theorem setColor_isSome (s : LightService) (id : Nat) (c : LightColor) (j : Nat) :
    ((s.setColor id c).2.lights j).isSome = (s.lights j).isSome := by
  cases hl : s.lights id with
  | none => rw [setColor_none c hl]
  | some l => rw [setColor_some c hl]; exact updateLight_isSome s id _ j

theorem controlGroup_groups (s : LightService) (gid : Nat) (a : Status) :
    (s.controlGroup gid a).2.groups = s.groups := by
  cases hg : s.groups gid with
  | none => rw [controlGroup_none a hg]
  | some g => rw [controlGroup_some a hg, controlGroupGo_groups]

theorem controlGroup_isSome (s : LightService) (gid : Nat) (a : Status) (j : Nat) :
    ((s.controlGroup gid a).2.lights j).isSome = (s.lights j).isSome := by
  cases hg : s.groups gid with
  | none => rw [controlGroup_none a hg]
  | some g => rw [controlGroup_some a hg, controlGroupGo_isSome]

theorem refIntegrity_mono {s t : LightService} (hs : RefIntegrity s)
    (hg : t.groups = s.groups) (hl : ∀ j, (s.lights j).isSome → (t.lights j).isSome) :
    RefIntegrity t := by
  intro gid g hgid lid hlid
  rw [hg] at hgid
  exact hl lid (hs gid g hgid lid hlid)

theorem step_refIntegrity {s t : LightService} (h : Step s t) (hs : RefIntegrity s) :
    RefIntegrity t := by
  cases h with
  | turnOn id =>
    exact refIntegrity_mono hs (turnOn_groups s id)
      (fun j hj => by rw [turnOn_isSome]; exact hj)
  | turnOff id =>
    exact refIntegrity_mono hs (turnOff_groups s id)
      (fun j hj => by rw [turnOff_isSome]; exact hj)
  | setBrightness id b =>
    exact refIntegrity_mono hs (setBrightness_groups s id b)
      (fun j hj => by rw [setBrightness_isSome]; exact hj)
  | setColor id c =>
    exact refIntegrity_mono hs (setColor_groups s id c)
      (fun j hj => by rw [setColor_isSome]; exact hj)
  | createGroup n ids =>
    cases hv : s.verifyAll ids with
    | error e => rw [createGroup_error hv]; exact hs
    | ok u =>
      cases u
      rw [createGroup_ok hv]
      intro gid g hgid lid hlid
      by_cases hj : gid = s.groupIdCounter
      · subst hj
        simp only [if_pos rfl] at hgid
        cases hgid
        exact verifyAll_forall_of_ok hv lid hlid
      · simp only [if_neg hj] at hgid
        exact hs gid g hgid lid hlid
  | controlGroup gid a =>
    exact refIntegrity_mono hs (controlGroup_groups s gid a)
      (fun j hj => by rw [controlGroup_isSome]; exact hj)
  | scheduleAction id t now a =>
    rw [scheduleAction_snd]
    exact hs
  | addLightToGroup gid lid =>
    cases hl : s.lights lid with
    | none => rw [addLightToGroup_light_none hl]; exact hs
    | some l =>
      cases hg : s.groups gid with
      | none => rw [addLightToGroup_group_none hl hg]; exact hs
      | some g =>
        by_cases hmem : lid ∈ g.lightIds
        · rw [addLightToGroup_mem hl hg hmem]; exact hs
        · rw [addLightToGroup_not_mem hl hg hmem]
          intro gid' g' hgid' lid' hlid'
          by_cases hj : gid' = gid
          · subst hj
            simp only [if_pos rfl] at hgid'
            cases hgid'
            rcases List.mem_append.mp hlid' with hmem' | hmem'
            · exact hs gid' g hg lid' hmem'
            · rw [List.mem_singleton.mp hmem', hl]; rfl
          · simp only [if_neg hj] at hgid'
            exact hs gid' g' hgid' lid' hlid'
  | removeLightFromGroup gid lid =>
    cases hg : s.groups gid with
    | none => rw [removeLightFromGroup_none lid hg]; exact hs
    | some g =>
      rw [removeLightFromGroup_some lid hg]
      intro gid' g' hgid' lid' hlid'
      by_cases hj : gid' = gid
      · subst hj
        simp only [if_pos rfl] at hgid'
        cases hgid'
        exact hs gid' g hg lid' (List.mem_filter.mp hlid').1
      · simp only [if_neg hj] at hgid'
        exact hs gid' g' hgid' lid' hlid'
  | deleteLightFromGroup lid =>
    cases hl : s.lights lid with
    | none => rw [deleteLightFromGroup_none hl]; exact hs
    | some l =>
      rw [deleteLightFromGroup_some hl]
      intro gid' g' hgid' lid' hlid'
      obtain ⟨g₀, hg₀, hfil⟩ := Option.map_eq_some'.mp hgid'
      subst hfil
      have hmem := List.mem_filter.mp hlid'
      have hne : lid' ≠ lid := by
        have := hmem.2
        simpa using this
      simp only [if_neg hne]
      exact hs gid' g₀ hg₀ lid' hmem.1
  | deleteGroup gid =>
    cases hg : s.groups gid with
    | none => rw [deleteGroup_none hg]; exact hs
    | some g =>
      rw [deleteGroup_some hg]
      intro gid' g' hgid' lid' hlid'
      by_cases hj : gid' = gid
      · subst hj
        simp only [if_pos rfl] at hgid'
        cases hgid'
      · simp only [if_neg hj] at hgid'
        exact hs gid' g' hgid' lid' hlid'
  | addLight =>
    refine refIntegrity_mono hs rfl ?_
    intro j hj
    show (if j = s.lightIdCounter then some _ else s.lights j).isSome
    by_cases hjc : j = s.lightIdCounter
    · rw [if_pos hjc]; rfl
    · rw [if_neg hjc]; exact hj

/-! ### Preservation of duplicate-free member lists -/

theorem groupsNodup_of_groups_eq {s t : LightService} (hs : GroupsNodup s)
    (hg : t.groups = s.groups) : GroupsNodup t := by
  intro gid g hgid
  rw [hg] at hgid
  exact hs gid g hgid

theorem stepND_groupsNodup {s t : LightService} (h : StepND s t) (hs : GroupsNodup s) :
    GroupsNodup t := by
  cases h with
  | turnOn id => exact groupsNodup_of_groups_eq hs (turnOn_groups s id)
  | turnOff id => exact groupsNodup_of_groups_eq hs (turnOff_groups s id)
  | setBrightness id b => exact groupsNodup_of_groups_eq hs (setBrightness_groups s id b)
  | setColor id c => exact groupsNodup_of_groups_eq hs (setColor_groups s id c)
  | createGroup n ids hnd =>
    cases hv : s.verifyAll ids with
    | error e => rw [createGroup_error hv]; exact hs
    | ok u =>
      cases u
      rw [createGroup_ok hv]
      intro gid g hgid
      by_cases hj : gid = s.groupIdCounter
      · subst hj
        simp only [if_pos rfl] at hgid
        cases hgid
        exact hnd
      · simp only [if_neg hj] at hgid
        exact hs gid g hgid
  | controlGroup gid a => exact groupsNodup_of_groups_eq hs (controlGroup_groups s gid a)
  | scheduleAction id t now a => rw [scheduleAction_snd]; exact hs
  | addLightToGroup gid lid =>
    cases hl : s.lights lid with
    | none => rw [addLightToGroup_light_none hl]; exact hs
    | some l =>
      cases hg : s.groups gid with
      | none => rw [addLightToGroup_group_none hl hg]; exact hs
      | some g =>
        by_cases hmem : lid ∈ g.lightIds
        · rw [addLightToGroup_mem hl hg hmem]; exact hs
        · rw [addLightToGroup_not_mem hl hg hmem]
          intro gid' g' hgid'
          by_cases hj : gid' = gid
          · subst hj
            simp only [if_pos rfl] at hgid'
            cases hgid'
            rw [show g.lightIds ++ [lid] = g.lightIds.concat lid from
              (List.concat_eq_append g.lightIds lid).symm]
            exact List.Nodup.concat hmem (hs gid' g hg)
          · simp only [if_neg hj] at hgid'
            exact hs gid' g' hgid'
  | removeLightFromGroup gid lid =>
    cases hg : s.groups gid with
    | none => rw [removeLightFromGroup_none lid hg]; exact hs
    | some g =>
      rw [removeLightFromGroup_some lid hg]
      intro gid' g' hgid'
      by_cases hj : gid' = gid
      · subst hj
        simp only [if_pos rfl] at hgid'
        cases hgid'
        exact List.Nodup.filter _ (hs gid' g hg)
      · simp only [if_neg hj] at hgid'
        exact hs gid' g' hgid'
  | deleteLightFromGroup lid =>
    cases hl : s.lights lid with
    | none => rw [deleteLightFromGroup_none hl]; exact hs
    | some l =>
      rw [deleteLightFromGroup_some hl]
      intro gid' g' hgid'
      obtain ⟨g₀, hg₀, hfil⟩ := Option.map_eq_some'.mp hgid'
      subst hfil
      exact List.Nodup.filter _ (hs gid' g₀ hg₀)
  | deleteGroup gid =>
    cases hg : s.groups gid with
    | none => rw [deleteGroup_none hg]; exact hs
    | some g =>
      rw [deleteGroup_some hg]
      intro gid' g' hgid'
      by_cases hj : gid' = gid
      · subst hj
        simp only [if_pos rfl] at hgid'
        cases hgid'
      · simp only [if_neg hj] at hgid'
        exact hs gid' g' hgid'
  | addLight => exact groupsNodup_of_groups_eq hs rfl

/-! ### Concrete states used to exercise the claims -/

/-- The state after `createGroup("G", [1, 1])` on the seeded initial state:
a group whose member list holds light id 1 twice. -/
def dupGroupState : LightService :=
  (LightService.init.createGroup ("G") [1, 1]).2

/-- The state after `createGroup("Room", [1, 2])` on the seeded initial state. -/
def roomState : LightService :=
  (LightService.init.createGroup ("Room") [1, 2]).2

/-- A store holding light 1 and a group whose member list still references
a missing light 2, exercising the fail-fast path of `controlGroup`. -/
def danglingState : LightService where
  lights := fun id => if id = 1 then some ⟨1, Status.off, 0, LightColor.white⟩ else none
  groups := fun gid => if gid = 1 then some ⟨1, "G", [1, 2]⟩ else none
  groupIdCounter := 2
  lightIdCounter := 3

/-! ### C1 -/

/-- C1, counterexample to the claim as stated: in the seeded initial
state light 999 does not exist, and `createGroup("G", [1, 999])` does
fail — but with the error `'Light not found'`, which the spec's §7
taxonomy classifies as `NotFound`, not `InvalidArgument`. -/
theorem c1_counterexample :
    LightService.init.lights 999 = none ∧
    (LightService.init.createGroup ("G") [1, 999]).1 = Except.error Err.lightNotFound ∧
    Err.specKind Err.lightNotFound = SpecErrorKind.NotFound ∧
    SpecErrorKind.NotFound ≠ SpecErrorKind.InvalidArgument :=
  ⟨rfl, rfl, rfl, by decide⟩

/-- C1 (amended): `createGroup(name, lightIds)` is all-or-nothing: when
some id in `lightIds` is missing from the lights map the call fails with
`'Light not found'` (kind `NotFound`) and the state is completely
unchanged (no group is created and the group id counter is not
advanced); when every id exists, a group with exactly the given member
list is created under the fresh id `groupIdCounter`, which is returned. -/
theorem c1_createGroup_all_or_nothing (s : LightService) (n : String) (ids : List Nat) :
    ((∃ x ∈ ids, s.lights x = none) →
       s.createGroup n ids = (Except.error Err.lightNotFound, s) ∧
       Err.specKind Err.lightNotFound = SpecErrorKind.NotFound) ∧
    ((∀ x ∈ ids, (s.lights x).isSome) →
       (s.createGroup n ids).1 = Except.ok s.groupIdCounter ∧
       (s.createGroup n ids).2.groups s.groupIdCounter = some ⟨s.groupIdCounter, n, ids⟩ ∧
       (s.createGroup n ids).2.groupIdCounter = s.groupIdCounter + 1 ∧
       (∀ j, j ≠ s.groupIdCounter → (s.createGroup n ids).2.groups j = s.groups j) ∧
       (s.createGroup n ids).2.lights = s.lights ∧
       (s.createGroup n ids).2.lightIdCounter = s.lightIdCounter) := by
  constructor
  · rintro ⟨x, hx, hnone⟩
    rw [createGroup_error (verifyAll_error_of_missing hx hnone)]
    exact ⟨rfl, rfl⟩
  · intro hall
    rw [createGroup_ok (verifyAll_ok_of_forall hall)]
    refine ⟨rfl, ?_, rfl, ?_, rfl, rfl⟩
    · simp
    · intro j hj
      simp [hj]

/-- C1, the amended theorem at a concrete input: `createGroup("G", [1, 999])`
on the seeded initial state fails with `'Light not found'` and leaves the
state unchanged. -/
theorem c1_witness :
    LightService.init.createGroup ("G") [1, 999] =
      (Except.error Err.lightNotFound, LightService.init) ∧
    Err.specKind Err.lightNotFound = SpecErrorKind.NotFound :=
  (c1_createGroup_all_or_nothing LightService.init ("G") [1, 999]).1
    ⟨999, by decide, rfl⟩

/-! ### C2 -/

/-- C2: in every state reachable from the seeded initial state by any
sequence of the public operations, every light id occurring in any
group's member list refers to a light present in the lights map. -/
theorem c2_refIntegrity_reachable (s : LightService) (h : Reachable s) : RefIntegrity s := by
  induction h with
  | init =>
    intro gid g hg lid hlid
    simp [LightService.init] at hg
  | step _ hstep ih => exact step_refIntegrity hstep ih

/-- C2 at a concrete reachable state: the state after
`createGroup("Room", [1, 2])` satisfies referential integrity. -/
theorem c2_witness : RefIntegrity roomState :=
  c2_refIntegrity_reachable roomState
    (Reachable.step Reachable.init (Step.createGroup LightService.init ("Room") [1, 2]))

/-! ### C3 -/

/-- C3: `controlGroup(groupId, action)` fails with `'Group not found'`
(kind `NotFound`) when the group is absent; otherwise it applies
`turnOn`/`turnOff` to the member lights in list order — when every
member exists the call succeeds and every member ends with status
`action`, and when some member is missing the first missing member
aborts the call with `'Light not found'` (kind `NotFound`) while every
member before it keeps its newly toggled status (no rollback). -/
theorem c3_controlGroup_fail_fast (s : LightService) (gid : Nat) (a : Status) :
    (s.groups gid = none →
       s.controlGroup gid a = (Except.error Err.groupNotFound, s) ∧
       Err.specKind Err.groupNotFound = SpecErrorKind.NotFound) ∧
    (∀ g, s.groups gid = some g →
       ((∀ id ∈ g.lightIds, (s.lights id).isSome) →
          s.controlGroup gid a = (Except.ok (), applyActionList a g.lightIds s) ∧
          ∀ id ∈ g.lightIds,
            ∃ l, (s.controlGroup gid a).2.lights id = some l ∧ l.status = a) ∧
       (∀ pre m rest, g.lightIds = pre ++ m :: rest →
          (∀ id ∈ pre, (s.lights id).isSome) → s.lights m = none →
          s.controlGroup gid a =
            (Except.error Err.lightNotFound, applyActionList a pre s) ∧
          Err.specKind Err.lightNotFound = SpecErrorKind.NotFound ∧
          ∀ id ∈ pre,
            ∃ l, (s.controlGroup gid a).2.lights id = some l ∧ l.status = a)) := by
  constructor
  · intro h
    rw [controlGroup_none a h]
    exact ⟨rfl, rfl⟩
  · intro g hg
    constructor
    · intro hall
      have heq : s.controlGroup gid a = (Except.ok (), applyActionList a g.lightIds s) := by
        rw [controlGroup_some a hg]
        exact controlGroupGo_all_some a hall
      refine ⟨heq, ?_⟩
      intro id hid
      rw [heq]
      exact applyActionList_mem a hall hid
    · intro pre m rest hsplit hpre hm
      have heq : s.controlGroup gid a =
          (Except.error Err.lightNotFound, applyActionList a pre s) := by
        rw [controlGroup_some a hg, hsplit]
        exact controlGroupGo_first_missing a rest hpre hm
      refine ⟨heq, rfl, ?_⟩
      intro id hid
      rw [heq]
      exact applyActionList_mem a hpre hid

/-- C3 at a concrete input: in `danglingState` (group 1 references
lights 1 and 2 but only light 1 exists), `controlGroup(1, "on")` fails
with `'Light not found'` and leaves light 1 toggled on (no rollback). -/
theorem c3_witness :
    danglingState.controlGroup 1 Status.on =
      (Except.error Err.lightNotFound, applyActionList Status.on [1] danglingState) :=
  (((c3_controlGroup_fail_fast danglingState 1 Status.on).2 ⟨1, "G", [1, 2]⟩ rfl).2
    [1] 2 [] rfl (by decide) rfl).1

/-! ### C4 -/

/-- C4: `deleteLightFromGroup(lightId)` (the system-wide delete) fails
with `'Light not found'` (kind `NotFound`) and changes nothing when the
light is absent; when the light exists it succeeds, filters the id out
of every group's member list (so no group references it afterwards),
removes the light from the lights map (a subsequent `getLight` reports
not-found), and leaves every other light untouched. -/
theorem c4_deleteLight_purges (s : LightService) (lid : Nat) :
    (s.lights lid = none →
       s.deleteLightFromGroup lid = (Except.error Err.lightNotFound, s) ∧
       Err.specKind Err.lightNotFound = SpecErrorKind.NotFound) ∧
    ((s.lights lid).isSome →
       (s.deleteLightFromGroup lid).1 = Except.ok () ∧
       (s.deleteLightFromGroup lid).2.getLight lid = none ∧
       (∀ gid g, s.groups gid = some g →
          (s.deleteLightFromGroup lid).2.groups gid =
            some { g with lightIds := g.lightIds.filter (fun id => id != lid) }) ∧
       (∀ gid g, (s.deleteLightFromGroup lid).2.groups gid = some g →
          lid ∉ g.lightIds) ∧
       (∀ j, j ≠ lid → (s.deleteLightFromGroup lid).2.lights j = s.lights j)) := by
  constructor
  · intro h
    rw [deleteLightFromGroup_none h]
    exact ⟨rfl, rfl⟩
  · intro hsome
    obtain ⟨l, hl⟩ := Option.isSome_iff_exists.mp hsome
    rw [deleteLightFromGroup_some hl]
    refine ⟨rfl, ?_, ?_, ?_, ?_⟩
    · show (if lid = lid then none else s.lights lid) = none
      rw [if_pos rfl]
    · intro gid g hg
      show ((s.groups gid).map _) = _
      rw [hg]
      rfl
    · intro gid g hgid
      obtain ⟨g₀, hg₀, hfil⟩ := Option.map_eq_some'.mp hgid
      subst hfil
      intro hmem
      have := (List.mem_filter.mp hmem).2
      simp at this
    · intro j hj
      show (if j = lid then none else s.lights j) = s.lights j
      rw [if_neg hj]

/-- C4 at a concrete input: deleting light 2 from `roomState` succeeds
and a subsequent `getLight(2)` reports not-found. -/
theorem c4_witness :
    (roomState.deleteLightFromGroup 2).1 = Except.ok () ∧
    (roomState.deleteLightFromGroup 2).2.getLight 2 = none :=
  ⟨((c4_deleteLight_purges roomState 2).2 (by decide)).1,
   ((c4_deleteLight_purges roomState 2).2 (by decide)).2.1⟩

/-! ### C5 -/

/-- C5, counterexample to the claim as stated: the state after
`createGroup("G", [1, 1])` is reachable from the seeded initial state,
and its group 1 holds light id 1 twice in its member list — `createGroup`
stores the given list without deduplication. -/
theorem c5_counterexample :
    Reachable dupGroupState ∧
    dupGroupState.groups 1 = some ⟨1, "G", [1, 1]⟩ ∧
    ([1, 1] : List Nat).count 1 = 2 :=
  ⟨Reachable.step Reachable.init (Step.createGroup LightService.init ("G") [1, 1]),
   rfl, by decide⟩

/-- C5 (amended): in every state reachable from the seeded initial state
by operation sequences in which every `createGroup` call receives a
duplicate-free `lightIds` list, no group's member list contains the same
light id twice (`addLightToGroup` never introduces a duplicate, and the
removal and deletion operations only shrink lists). -/
theorem c5_groupsNodup_reachable (s : LightService) (h : ReachableND s) : GroupsNodup s := by
  induction h with
  | init =>
    intro gid g hg
    simp [LightService.init] at hg
  | step _ hstep ih => exact stepND_groupsNodup hstep ih

/-- C5 at a concrete reachable state: after `createGroup("Room", [1, 2])`
(a duplicate-free input) every group's member list is duplicate-free. -/
theorem c5_witness : GroupsNodup roomState :=
  c5_groupsNodup_reachable roomState
    (ReachableND.step ReachableND.init
      (StepND.createGroup LightService.init ("Room") [1, 2] (by decide)))

/-! ### C6 -/

/-- C6: from any reachable state, `addLight` returns an id greater than
both seeded ids (1 and 2), and any later `addLight` — after an arbitrary
further operation sequence, including deletions — returns a strictly
greater id, so allocated light ids are strictly increasing, pairwise
distinct, and never reused. -/
theorem c6_addLight_strictly_increasing (s tSvc : LightService) (h : Reachable s)
    (ht : Relation.ReflTransGen Step s.addLight.2 tSvc) :
    2 < s.addLight.1 ∧ s.addLight.1 < tSvc.addLight.1 := by
  have h3 := reachable_lightIdCounter_ge h
  have hle := rtg_lightIdCounter_le ht
  rw [addLight_snd_lightIdCounter] at hle
  rw [addLight_fst, addLight_fst]
  omega

/-- C6 at a concrete input: the first two `addLight` calls on the seeded
initial state return 3 and then a strictly greater id. -/
theorem c6_witness :
    2 < LightService.init.addLight.1 ∧
    LightService.init.addLight.1 < LightService.init.addLight.2.addLight.1 :=
  c6_addLight_strictly_increasing LightService.init LightService.init.addLight.2
    Reachable.init Relation.ReflTransGen.refl

/-! ### C7 -/

/-- C7: `setBrightness(id, b)` fails with `'Light not found'` (kind
`NotFound`) when the light is absent; when the light exists, a value in
`[0, 100]` succeeds and a subsequent `getLight(id)` has brightness `b`,
while a value outside `[0, 100]` fails with the brightness-range error
(kind `InvalidArgument`) and leaves the whole state unchanged. -/
theorem c7_setBrightness_spec (s : LightService) (id : Nat) (b : Int) :
    (s.lights id = none →
       s.setBrightness id b = (Except.error Err.lightNotFound, s) ∧
       Err.specKind Err.lightNotFound = SpecErrorKind.NotFound) ∧
    ((s.lights id).isSome →
       ((0 ≤ b ∧ b ≤ 100) →
          (s.setBrightness id b).1 = Except.ok () ∧
          ∃ l, (s.setBrightness id b).2.getLight id = some l ∧ l.brightness = b) ∧
       (¬ (0 ≤ b ∧ b ≤ 100) →
          s.setBrightness id b = (Except.error Err.brightnessOutOfRange, s) ∧
          Err.specKind Err.brightnessOutOfRange = SpecErrorKind.InvalidArgument)) := by
  constructor
  · intro h
    rw [setBrightness_none b h]
    exact ⟨rfl, rfl⟩
  · intro hsome
    obtain ⟨l, hl⟩ := Option.isSome_iff_exists.mp hsome
    constructor
    · rintro ⟨h0, h100⟩
      rw [setBrightness_in hl h0 h100]
      refine ⟨rfl, { l with brightness := b }, ?_, rfl⟩
      show (s.updateLight id _).lights id = _
      rw [updateLight_lights_self, hl]
      rfl
    · intro hout
      rw [setBrightness_out hl (by omega)]
      exact ⟨rfl, rfl⟩

/-- C7 at a concrete input: `setBrightness(1, 50)` on the seeded initial
state succeeds and the light's brightness afterwards is 50. -/
theorem c7_witness :
    (LightService.init.setBrightness 1 50).1 = Except.ok () ∧
    (LightService.init.setBrightness 1 50).2.getLight 1 =
      some ⟨1, Status.off, 50, LightColor.white⟩ :=
  ⟨(((c7_setBrightness_spec LightService.init 1 50).2 (by decide)).1 (by decide)).1, rfl⟩

/-! ### C8 -/

/-- C8: `scheduleAction(lightId, time, action)` fails with
`'Light not found'` (kind `NotFound`) when the light is absent at
scheduling time, and — when the light exists but the parsed fire time is
strictly before the current time, so the computed delay is negative —
fails with `'Scheduled time must be in the future'` (kind
`InvalidArgument`); in either failure case the store, and in particular
the light's status, is unchanged. -/
theorem c8_scheduleAction_failures (s : LightService) (id : Nat) (time now : Int)
    (a : Status) :
    (s.lights id = none →
       s.scheduleAction id time now a = (Except.error Err.lightNotFound, s) ∧
       Err.specKind Err.lightNotFound = SpecErrorKind.NotFound) ∧
    ((s.lights id).isSome → time < now →
       LightService.calculateDelay time now < 0 ∧
       s.scheduleAction id time now a = (Except.error Err.timeInPast, s) ∧
       Err.specKind Err.timeInPast = SpecErrorKind.InvalidArgument) := by
  constructor
  · intro h
    refine ⟨?_, rfl⟩
    rw [LightService.scheduleAction, verifyLightExists_none h]
  · intro hsome hlt
    obtain ⟨l, hl⟩ := Option.isSome_iff_exists.mp hsome
    have hd : LightService.calculateDelay time now < 0 := by
      unfold LightService.calculateDelay
      omega
    refine ⟨hd, ?_, rfl⟩
    rw [LightService.scheduleAction, verifyLightExists_some hl]
    simp only [hd, if_pos]

/-- C8 at a concrete input: scheduling light 1 for time 5 when the
current time is 10 fails with the past-time error and leaves the seeded
initial state unchanged. -/
theorem c8_witness :
    LightService.init.scheduleAction 1 5 10 Status.on =
      (Except.error Err.timeInPast, LightService.init) :=
  ((c8_scheduleAction_failures LightService.init 1 5 10 Status.on).2
    (by decide) (by decide)).2.1

/-! ### C9 -/

/-- C9, counterexample to the claim as stated: in the reachable state
`dupGroupState` both group 1 and light 1 exist, calling
`addLightToGroup(1, 1)` twice is a no-op success both times — yet the
resulting member list `[1, 1]` contains light id 1 twice, because the
list already held a duplicate that `addLightToGroup` never removes. -/
theorem c9_counterexample :
    Reachable dupGroupState ∧
    (dupGroupState.lights 1).isSome = true ∧
    ((dupGroupState.addLightToGroup 1 1).2.addLightToGroup 1 1).2.groups 1 =
      some ⟨1, "G", [1, 1]⟩ ∧
    ([1, 1] : List Nat).count 1 = 2 :=
  ⟨Reachable.step Reachable.init (Step.createGroup LightService.init ("G") [1, 1]),
   rfl, rfl, by decide⟩

/-- C9 (amended): for every state in which both the group and the light
exist, `addLightToGroup(groupId, lightId)` succeeds, a second identical
call is a no-op success yielding the same state, and the resulting
member list contains `lightId`; when the group's member list was
duplicate-free beforehand it stays duplicate-free and contains `lightId`
exactly once. -/
theorem c9_addLightToGroup_idempotent (s : LightService) (gid lid : Nat) (g : LightGroup)
    (hg : s.groups gid = some g) (hl : (s.lights lid).isSome) :
    (s.addLightToGroup gid lid).1 = Except.ok () ∧
    (s.addLightToGroup gid lid).2.addLightToGroup gid lid =
      (Except.ok (), (s.addLightToGroup gid lid).2) ∧
    ∃ g₁, (s.addLightToGroup gid lid).2.groups gid = some g₁ ∧ lid ∈ g₁.lightIds ∧
      (g.lightIds.Nodup → g₁.lightIds.Nodup ∧ g₁.lightIds.count lid = 1) := by
  obtain ⟨l, hle⟩ := Option.isSome_iff_exists.mp hl
  by_cases hmem : lid ∈ g.lightIds
  · rw [addLightToGroup_mem hle hg hmem]
    refine ⟨rfl, ?_, g, hg, hmem,
      fun hnd => ⟨hnd, List.count_eq_one_of_mem hnd hmem⟩⟩
    dsimp only
    rw [addLightToGroup_mem hle hg hmem]
  · rw [addLightToGroup_not_mem hle hg hmem]
    dsimp only
    have hg₁ : ({ s with groups := fun j => if j = gid then some { g with lightIds := g.lightIds ++ [lid] } else s.groups j } : LightService).groups gid = some { g with lightIds := g.lightIds ++ [lid] } := by
      simp
    have hmem₁ : lid ∈ g.lightIds ++ [lid] :=
      List.mem_append_right _ (List.mem_singleton.mpr rfl)
    refine ⟨rfl, ?_, { g with lightIds := g.lightIds ++ [lid] }, hg₁, hmem₁, ?_⟩
    · exact addLightToGroup_mem hle hg₁ hmem₁
    · intro hnd
      constructor
      · rw [show g.lightIds ++ [lid] = g.lightIds.concat lid from
          (List.concat_eq_append g.lightIds lid).symm]
        exact List.Nodup.concat hmem hnd
      · show (g.lightIds ++ [lid]).count lid = 1
        rw [List.count_append, List.count_eq_zero.mpr hmem]
        simp

/-- C9 at a concrete input: adding light 1 to group 1 of `roomState`
(where it is already a member) succeeds, and a second identical call
yields the same state. -/
theorem c9_witness :
    (roomState.addLightToGroup 1 1).1 = Except.ok () ∧
    (roomState.addLightToGroup 1 1).2.addLightToGroup 1 1 =
      (Except.ok (), (roomState.addLightToGroup 1 1).2) :=
  ⟨(c9_addLightToGroup_idempotent roomState 1 1 ⟨1, "Room", [1, 2]⟩ rfl rfl).1,
   (c9_addLightToGroup_idempotent roomState 1 1 ⟨1, "Room", [1, 2]⟩ rfl rfl).2.1⟩

/-! ### C10 -/

/-- C10: when the light exists, `turnOn(id)` and `turnOff(id)` succeed
and change only the status field of that light: its id, brightness and
color, every other light, the whole groups map, and both id counters are
unchanged. -/
theorem c10_turnOnOff_frame (s : LightService) (id : Nat) (l : Light)
    (h : s.lights id = some l) :
    (s.turnOn id).1 = Except.ok () ∧
    (s.turnOn id).2.lights id = some { l with status := Status.on } ∧
    (∀ j, j ≠ id → (s.turnOn id).2.lights j = s.lights j) ∧
    (s.turnOn id).2.groups = s.groups ∧
    (s.turnOn id).2.groupIdCounter = s.groupIdCounter ∧
    (s.turnOn id).2.lightIdCounter = s.lightIdCounter ∧
    (s.turnOff id).1 = Except.ok () ∧
    (s.turnOff id).2.lights id = some { l with status := Status.off } ∧
    (∀ j, j ≠ id → (s.turnOff id).2.lights j = s.lights j) ∧
    (s.turnOff id).2.groups = s.groups ∧
    (s.turnOff id).2.groupIdCounter = s.groupIdCounter ∧
    (s.turnOff id).2.lightIdCounter = s.lightIdCounter := by
  rw [turnOn_some h, turnOff_some h]
  dsimp only
  refine ⟨rfl, ?_, ?_, rfl, rfl, rfl, rfl, ?_, ?_, rfl, rfl, rfl⟩
  · rw [updateLight_lights_self, h]
    rfl
  · exact fun j hj => updateLight_lights_ne s id _ hj
  · rw [updateLight_lights_self, h]
    rfl
  · exact fun j hj => updateLight_lights_ne s id _ hj

/-- C10 at a concrete input: turning on seeded light 1 sets just its
status, and the groups map is untouched. -/
theorem c10_witness :
    (LightService.init.turnOn 1).2.lights 1 =
      some ⟨1, Status.on, 0, LightColor.white⟩ ∧
    (LightService.init.turnOn 1).2.groups = LightService.init.groups :=
  ⟨(c10_turnOnOff_frame LightService.init 1 ⟨1, Status.off, 0, LightColor.white⟩ rfl).2.1,
   (c10_turnOnOff_frame LightService.init 1
     ⟨1, Status.off, 0, LightColor.white⟩ rfl).2.2.2.1⟩
